import Mathlib

/-!
Shallow embedding of `boost/process/child.hpp` (the resource-bundle builder
`detail::make_resource` and the process-handle owner `class child`).

The platform backends (`boost/process/posix/child_handle.hpp`,
`terminate.hpp`, `wait_for_exit.hpp`, `is_running.hpp`) belong to the
repository but are not under `src/`; where their behaviour decides a claim it
is modelled from the spec, as noted in the doc comments below.  The outcome of
each OS primitive is passed in as an explicit parameter (the exit code the OS
would report, whether the process is alive, whether a bounded wait ran out of
time), so every operation is a pure function of the owner state and that
outcome.
-/

namespace BoostProcess

/-- Modelled from the spec: the platform `child_handle`
(`boost/process/posix/child_handle.hpp` is not under `src/`).  Per the spec a
native process handle is either valid (refers to a real, not-yet-reaped
process; carried here as its pid) or empty (default-constructed / moved-from,
`none`); move transfers the pid and leaves the source empty, and `valid()`
holds exactly for a non-empty handle. -/
abbrev child_handle := Option Int

/-- Embedding of `detail::make_resource`.  The launcher step
`initializer_resource` (external) resolves each descriptor to either a
concrete resource (`some r`) or `boost::none` (`none`); `ir` stands for it.
The body mirrors the source: `res = hana::transform(tup, initializer_resource)`
followed by `hana::filter(res, decltype_(v) == decltype_(boost::none))`, which
keeps exactly the entries whose type is the type of `boost::none`.  The
`resource_t` aggregate built by `hana::unpack(filtered, maker)` owns exactly
the kept entries in order, returned here as the list of kept entries. -/
def make_resource {D R : Type} (ir : D → Option R) (tup : List D) : List (Option R) :=
  (tup.map ir).filter (fun v => v.isNone)

/-- Specification-side counterpart of `make_resource`, for comparison only.
It follows the spec sentence: "Filter out all absent entries, preserving
relative order of the remaining ones", the aggregate owning all remaining
concrete resources. -/
def make_resource_spec {D R : Type} (ir : D → Option R) (tup : List D) : List R :=
  (tup.map ir).filterMap (fun v => v)

/-- Embedding of `class child`.  Fields mirror the members `_child_handle`,
`_resource`, `_exited`, `_exit_code`, `_attached`.  The resource bundle
`std::unique_ptr<void, void(*)(void*)>` is an opaque owning pointer; it is
carried as `Option Nat` (an opaque allocation id, `none` for the null
pointer), which is all the claims observe about it: `unique_ptr` move leaves
the source null, and its destructor runs the deleter only on a non-null
pointer. -/
structure child where
  handle : child_handle
  resource : Option Nat
  exited : Bool
  exit_code : Int
  attached : Bool
deriving DecidableEq

/-- Constructor `child(child_handle &&ch, resource_t &&resource = nullptr)`:
the member-initializer list sets `_child_handle` and `_resource`; the in-class
initializers give `_exited{false}`, `_exit_code{-1}`, `_attached = false`. -/
def child.fromHandle (ch : child_handle) (res : Option Nat) : child :=
  { handle := ch, resource := res, exited := false, exit_code := -1, attached := false }

/-- Default constructor `child() = default`: empty handle, null resource,
in-class initializers for the remaining members. -/
def child.mkDefault : child :=
  child.fromHandle none none

/-- `valid()`: `return _child_handle.valid();`.  Modelled from the spec for
the missing `child_handle::valid`: true exactly for a non-empty handle. -/
def child.valid (c : child) : Bool :=
  c.handle.isSome

/-- Move constructor `child(child && lhs)`: moves `_child_handle` and
`_resource`, copies the loaded `_exited`, `_exit_code` and `_attached`.
Returns (the constructed owner, the source after the move).  The moved-from
source keeps its `_exited`, `_exit_code` and `_attached` values; its handle is
empty (spec-modelled `child_handle` move) and its resource pointer is null
(`unique_ptr` move). -/
def child.moveCtor (lhs : child) : child × child :=
  ({ handle := lhs.handle, resource := lhs.resource, exited := lhs.exited,
     exit_code := lhs.exit_code, attached := lhs.attached },
   { lhs with handle := none, resource := none })

/-- Move assignment `operator=(child && lhs)`: same five transfers onto an
existing owner (whose previous resource bundle is released by the overwritten
`unique_ptr` as part of the assignment).  Returns (the assigned-to owner, the
source after the move). -/
def child.moveAssign (_dst lhs : child) : child × child :=
  ({ handle := lhs.handle, resource := lhs.resource, exited := lhs.exited,
     exit_code := lhs.exit_code, attached := lhs.attached },
   { lhs with handle := none, resource := none })

/-- `running()`: `if (valid()) return api::is_running(_child_handle); return
false;`.  `osAlive` is the answer the OS primitive would give; the second
component records whether that primitive (a syscall) was consulted. -/
def child.running (c : child) (osAlive : Bool) : Bool × Bool :=
  if c.valid then (osAlive, true) else (false, false)

/-- `terminate()`: calls `api::terminate(_child_handle)` unconditionally and
does not touch the owner state.  Returns (the unchanged owner, whether a
termination request reached a real process).  Modelled from the spec for the
missing `api::terminate` on an empty handle: "all lifecycle operations on an
empty handle are no-ops", so the request reaches a process exactly when the
handle is valid. -/
def child.terminate (c : child) : child × Bool :=
  (c, c.valid)

/-- `wait()`: `if (!_exited.load()) { int exit_code = 0;
api::wait(_child_handle, exit_code); _exited.store(true);
_exit_code.store(exit_code); }`.  `os` is the exit code the OS primitive
writes into the local variable.  Returns (the new state, whether the OS wait
primitive was invoked). -/
def child.wait (c : child) (os : Int) : child × Bool :=
  if c.exited then (c, false)
  else ({ c with exited := true, exit_code := os }, true)

/-- Observable `(exited, exit_code)` states during one execution of `wait()`,
one entry per instant an observer thread could read the atomics: the state on
entry, the state after `_exited.store(true)`, and the state after
`_exit_code.store(exit_code)`.  When the owner is already exited no store
happens. -/
def child.waitTrace (c : child) (os : Int) : List child :=
  if c.exited then [c]
  else [c, { c with exited := true }, { c with exited := true, exit_code := os }]

/-- `wait_for(rel_time)`: `if (!_exited.load()) { int exit_code = 0; auto b =
api::wait_for(_child_handle, _exit_code, rel_time); _exited.store(b); if (!b)
return false; _exit_code.store(exit_code); } return true;`.  Note the source
hands the member `_exit_code` to the OS primitive but then stores the local
`exit_code`, still `0`, so on success the committed exit code is `0`.  `os` is
the OS outcome: `some code` when the process exited within the bound, `none`
on timeout.  Modelled from the spec for the missing `api::wait_for`: on
timeout it returns false and leaves its exit-code out-parameter unchanged.
Returns (new state, the bool return value, whether the OS primitive was
invoked). -/
def child.wait_for (c : child) (os : Option Int) : child × Bool × Bool :=
  if c.exited then (c, true, false)
  else
    match os with
    | none => (c, false, true)
    | some _ => ({ c with exited := true, exit_code := 0 }, true, true)

/-- `wait_until(timeout_time)`: textually the same body as `wait_for`, calling
`api::wait_until`; it shares the stored-local-instead-of-received-code slip.
`os` is `some code` when the process exited before the deadline, `none` when
the deadline passed first. -/
def child.wait_until (c : child) (os : Option Int) : child × Bool × Bool :=
  if c.exited then (c, true, false)
  else
    match os with
    | none => (c, false, true)
    | some _ => ({ c with exited := true, exit_code := 0 }, true, true)

/-- Destructor `~child()`: `if (!_exited.load() && _attached) wait();`.
This predicate holds when the destructor invokes `wait()` at all. -/
def child.dtorCallsWait (c : child) : Bool :=
  !c.exited && c.attached

/-- Whether the destructor blocks on a real process: it must reach the
`wait()` call and the handle must be valid.  Modelled from the spec for the
missing `api::wait` on an empty handle: "all lifecycle operations on an empty
handle are no-ops", so waiting on an empty handle does not block and reaps
nothing. -/
def child.dtorBlocks (c : child) : Bool :=
  child.dtorCallsWait c && c.valid

/-- The resource allocation freed when this owner is destroyed: the
`unique_ptr` destructor runs the captured deleter exactly on a non-null
pointer, so it frees `c.resource` (and nothing else). -/
def child.dtorFreedResource (c : child) : Option Nat :=
  c.resource

/-- One lifecycle operation applied to an owner, with the OS outcome it would
observe baked in, for stating properties of operation sequences. -/
inductive ChildOp where
  | running (osAlive : Bool)
  | terminate
  | wait (os : Int)
  | waitFor (os : Option Int)
  | waitUntil (os : Option Int)
  | moveAssignFrom (src : child)
deriving DecidableEq

/-- Whether the operation is a move assignment onto the owner. -/
def ChildOp.isMove : ChildOp → Bool
  | .moveAssignFrom _ => true
  | _ => false

/-- The owner state after one operation. -/
def child.applyOp (c : child) (op : ChildOp) : child :=
  match op with
  | .running _ => c
  | .terminate => (child.terminate c).1
  | .wait os => (child.wait c os).1
  | .waitFor os => (child.wait_for c os).1
  | .waitUntil os => (child.wait_until c os).1
  | .moveAssignFrom src => (child.moveAssign c src).1

/-- The owner state after a sequence of operations. -/
def child.runOps (c : child) (ops : List ChildOp) : child :=
  ops.foldl child.applyOp c

/-! Theorems settling the claims. -/

/-- C1: evaluation of the resource-bundle builder at the descriptor tuple
resolving to `[some 5, none]`.  The claim says the aggregate owns precisely
the non-absent resources in order, here `[5]`; the code's `hana::filter` keeps
the entries whose type equals the type of `boost::none`, so the built
aggregate owns exactly the absent entry and not a single concrete resource,
while the spec-side builder yields `[5]`. -/
theorem C1_code_eval :
    make_resource (fun d => d) ([some 5, none] : List (Option Nat)) = [none] ∧
    (make_resource (fun d => d) ([some 5, none] : List (Option Nat))).filterMap
      (fun v => v) = [] ∧
    make_resource_spec (fun d => d) ([some 5, none] : List (Option Nat)) = [5] := by
  refine ⟨rfl, rfl, rfl⟩

/-- C2: an owner constructed from a valid native handle by a direct launch is
not attached (`_attached` is initialized to `false` and the constructor never
sets it), so for a process that has not exited the destructor does not invoke
`wait()` and does not block. -/
theorem C2_code_eval :
    (child.fromHandle (some 1) none).attached = false ∧
    (child.fromHandle (some 1) none).exited = false ∧
    (child.fromHandle (some 1) none).valid = true ∧
    child.dtorCallsWait (child.fromHandle (some 1) none) = false ∧
    child.dtorBlocks (child.fromHandle (some 1) none) = false := by
  refine ⟨rfl, rfl, rfl, rfl, rfl⟩

/-- C3: for a running owner whose process exits with code 7 within the bound,
`wait_for` and `wait_until` return true but commit the untouched local `int
exit_code = 0` instead of the received code, so a subsequent `exit_code()`
returns 0, not the actual exit code 7 the claim promises. -/
theorem C3_code_eval :
    (child.wait_for (child.fromHandle (some 1) none) (some 7)).2.1 = true ∧
    (child.wait_for (child.fromHandle (some 1) none) (some 7)).1.exit_code = 0 ∧
    (child.wait_until (child.fromHandle (some 1) none) (some 7)).2.1 = true ∧
    (child.wait_until (child.fromHandle (some 1) none) (some 7)).1.exit_code = 0 := by
  refine ⟨rfl, rfl, rfl, rfl⟩

/-- C4: during `wait()` on a running owner whose process exits with code 7,
there is an observable point (after `_exited.store(true)`, before
`_exit_code.store`) at which the exited flag reads true while `exit_code()`
still returns the sentinel -1, contradicting the claim that whenever
exited=true the real exit code is visible. -/
theorem C4_code_eval :
    ∃ t ∈ child.waitTrace (child.fromHandle (some 1) none) 7,
      t.exited = true ∧ t.exit_code = -1 := by
  refine ⟨{ handle := some 1, resource := none, exited := true, exit_code := -1,
            attached := false }, ?_, rfl, rfl⟩
  simp [child.waitTrace, child.fromHandle]

/-- C5: move construction and move assignment transfer all five members
(native handle, resource bundle, exited flag, exit code, attached flag), so
the destination reproduces the source's pre-move state exactly; afterwards the
source's `valid()` is false, and destroying the source frees no resource
allocation (its `unique_ptr` is null) and performs no blocking OS wait on any
process (its handle is empty), so neither the process nor the resources now
owned by the destination are affected. -/
theorem C5_move_transfers (a dst : child) :
    (child.moveCtor a).1 = a ∧
    (child.moveCtor a).2.valid = false ∧
    child.dtorFreedResource (child.moveCtor a).2 = none ∧
    child.dtorBlocks (child.moveCtor a).2 = false ∧
    (child.moveAssign dst a).1 = a ∧
    (child.moveAssign dst a).2.valid = false ∧
    child.dtorFreedResource (child.moveAssign dst a).2 = none ∧
    child.dtorBlocks (child.moveAssign dst a).2 = false := by
  refine ⟨rfl, rfl, rfl, ?_, rfl, rfl, rfl, ?_⟩ <;>
    simp [child.dtorBlocks, child.dtorCallsWait, child.valid, child.moveCtor,
      child.moveAssign]

/-- C6: on an owner that is not yet exited, when the bound elapses before the
process terminates (`none` outcome of the OS primitive), `wait_for` and
`wait_until` return false and leave the state exactly unchanged: the exited
flag is still false and the stored exit code is untouched. -/
theorem C6_timeout (c : child) (h : c.exited = false) :
    child.wait_for c none = (c, false, true) ∧
    child.wait_until c none = (c, false, true) := by
  constructor <;> simp [child.wait_for, child.wait_until, h]

/-- C6 witness: a concrete running owner timing out. -/
theorem C6_timeout_witness :
    (child.fromHandle (some 1) none).exited = false ∧
    child.wait_for (child.fromHandle (some 1) none) none =
      (child.fromHandle (some 1) none, false, true) ∧
    child.wait_until (child.fromHandle (some 1) none) none =
      (child.fromHandle (some 1) none, false, true) := by
  refine ⟨rfl, C6_timeout (child.fromHandle (some 1) none) rfl⟩

/-- C7 counterexample: the claim quantifies over sequences that include move
assignment; move-assigning a default-constructed (not exited) owner onto an
owner whose exited flag is true stores the source's flag and reverts exited
from true to false. -/
theorem C7_counterexample :
    ({ handle := some 1, resource := none, exited := true, exit_code := 7,
       attached := false } : child).exited = true ∧
    (child.runOps
      { handle := some 1, resource := none, exited := true, exit_code := 7,
        attached := false }
      [ChildOp.moveAssignFrom child.mkDefault]).exited = false := by
  refine ⟨rfl, rfl⟩

/-- C7 amended: the exited flag is monotone under every lifecycle operation
(`running`, `terminate`, `wait`, `wait_for`, `wait_until`): once true it never
reverts to false under any sequence of them.  Move assignment is excluded: it
replaces the flag with the source's exited flag, as the owner then holds a
different process. -/
theorem C7_amended (c : child) (ops : List ChildOp) (h : c.exited = true)
    (hm : ∀ op ∈ ops, ChildOp.isMove op = false) :
    (child.runOps c ops).exited = true := by
  induction ops generalizing c with
  | nil => simpa [child.runOps] using h
  | cons op rest ih =>
    have hop : ChildOp.isMove op = false := hm op (by simp)
    have hrest : ∀ o ∈ rest, ChildOp.isMove o = false :=
      fun o ho => hm o (by simp [ho])
    have hstep : (child.applyOp c op).exited = true := by
      cases op with
      | running a => simpa [child.applyOp] using h
      | terminate => simpa [child.applyOp, child.terminate] using h
      | wait os => simp [child.applyOp, child.wait, h]
      | waitFor os => simp [child.applyOp, child.wait_for, h]
      | waitUntil os => simp [child.applyOp, child.wait_until, h]
      | moveAssignFrom src => simp [ChildOp.isMove] at hop
    exact ih (child.applyOp c op) hstep hrest

/-- C7 witness: a concrete exited owner driven through a sequence of
non-move lifecycle operations stays exited. -/
theorem C7_amended_witness :
    ({ handle := some 1, resource := none, exited := true, exit_code := 7,
       attached := false } : child).exited = true ∧
    (∀ op ∈ [ChildOp.wait 3, ChildOp.terminate, ChildOp.waitFor none,
             ChildOp.running true, ChildOp.waitUntil (some 2)],
        ChildOp.isMove op = false) ∧
    (child.runOps
      { handle := some 1, resource := none, exited := true, exit_code := 7,
        attached := false }
      [ChildOp.wait 3, ChildOp.terminate, ChildOp.waitFor none,
       ChildOp.running true, ChildOp.waitUntil (some 2)]).exited = true := by
  refine ⟨rfl, by decide, C7_amended _ _ rfl (by decide)⟩

/-- C8: `wait()` is idempotent: for every owner and OS outcomes, after a first
`wait()` the owner is exited, and a second `wait()` returns with the state
completely unchanged, performs no OS wait, and yields the same exit code as
the first call. -/
theorem C8_wait_idempotent (c : child) (os1 os2 : Int) :
    (child.wait c os1).1.exited = true ∧
    (child.wait (child.wait c os1).1 os2).1 = (child.wait c os1).1 ∧
    (child.wait (child.wait c os1).1 os2).2 = false ∧
    (child.wait (child.wait c os1).1 os2).1.exit_code =
      (child.wait c os1).1.exit_code := by
  by_cases h : c.exited = true <;> simp [child.wait, h]

/-- C9 counterexample: the claim says every owner with an empty
(default-constructed or moved-from) handle has `exit_code()` equal to the
sentinel -1; but a moved-from owner keeps its previously stored exit code:
moving from an exited owner with exit code 5 leaves a source with an empty
handle whose `exit_code()` is 5. -/
theorem C9_counterexample :
    (child.moveCtor
      { handle := some 1, resource := none, exited := true, exit_code := 5,
        attached := false }).2.handle = none ∧
    (child.moveCtor
      { handle := some 1, resource := none, exited := true, exit_code := 5,
        attached := false }).2.exit_code = 5 := by
  refine ⟨rfl, rfl⟩

/-- C9 amended: every lifecycle operation on an owner with an empty handle is
a no-op or reports invalid: `valid()` and `running()` return false with
`running()` making no syscall, `terminate()` is a benign no-op that reaches no
process, and the destructor completes without blocking.  `exit_code()` returns
the sentinel -1 for a default-constructed owner; a moved-from owner instead
retains the exit code stored before the move. -/
theorem C9_amended (c c0 : child) (osAlive : Bool) (h : c.handle = none) :
    c.valid = false ∧
    child.running c osAlive = (false, false) ∧
    child.terminate c = (c, false) ∧
    child.dtorBlocks c = false ∧
    child.mkDefault.valid = false ∧
    child.mkDefault.exit_code = -1 ∧
    (child.moveCtor c0).2.exit_code = c0.exit_code := by
  have hv : c.valid = false := by simp [child.valid, h]
  refine ⟨hv, ?_, ?_, ?_, rfl, rfl, rfl⟩ <;>
    simp [child.running, child.terminate, child.dtorBlocks, hv]

/-- C9 witness: a concrete moved-from owner with an empty handle. -/
theorem C9_amended_witness :
    (child.moveCtor (child.fromHandle (some 1) none)).2.handle = none ∧
    ((child.moveCtor (child.fromHandle (some 1) none)).2.valid = false ∧
     child.running (child.moveCtor (child.fromHandle (some 1) none)).2 true =
       (false, false) ∧
     child.terminate (child.moveCtor (child.fromHandle (some 1) none)).2 =
       ((child.moveCtor (child.fromHandle (some 1) none)).2, false) ∧
     child.dtorBlocks (child.moveCtor (child.fromHandle (some 1) none)).2 = false ∧
     child.mkDefault.valid = false ∧
     child.mkDefault.exit_code = -1 ∧
     (child.moveCtor child.mkDefault).2.exit_code = child.mkDefault.exit_code) := by
  refine ⟨rfl, C9_amended _ child.mkDefault true rfl⟩

/-- C10: on an owner already in the Exited state, `wait_for` and `wait_until`
return true immediately for every OS outcome (any duration or deadline),
without consulting the OS primitive, and leave the whole state, in particular
the exited flag and the stored exit code, unchanged. -/
theorem C10_exited_waits (c : child) (os1 os2 : Option Int) (h : c.exited = true) :
    child.wait_for c os1 = (c, true, false) ∧
    child.wait_until c os2 = (c, true, false) := by
  constructor <;> simp [child.wait_for, child.wait_until, h]

/-- C10 witness: a concrete exited owner. -/
theorem C10_exited_waits_witness :
    ({ handle := some 1, resource := none, exited := true, exit_code := 9,
       attached := false } : child).exited = true ∧
    child.wait_for
      { handle := some 1, resource := none, exited := true, exit_code := 9,
        attached := false } (some 3) =
      ({ handle := some 1, resource := none, exited := true, exit_code := 9,
         attached := false }, true, false) ∧
    child.wait_until
      { handle := some 1, resource := none, exited := true, exit_code := 9,
        attached := false } none =
      ({ handle := some 1, resource := none, exited := true, exit_code := 9,
         attached := false }, true, false) := by
  refine ⟨rfl, C10_exited_waits _ (some 3) none rfl⟩

end BoostProcess
